import Mathlib

attribute [local semireducible] Rat.add Rat.mul Rat.inv Rat.sub Rat.ofScientific

instance {ε α : Type} [DecidableEq ε] [DecidableEq α] :
    DecidableEq (Except ε α) := fun a b =>
  match a, b with
  | .error u, .error v =>
      if h : u = v then isTrue (by rw [h]) else isFalse (by simp [h])
  | .error _, .ok _ => isFalse (by simp)
  | .ok _, .error _ => isFalse (by simp)
  | .ok u, .ok v =>
      if h : u = v then isTrue (by rw [h]) else isFalse (by simp [h])

/-!
Shallow embedding of the rotation-decision engine of `app/pdf_utils.py` and
the fine-skew step of `app/main.py`.

External effects are made explicit:
* the OSD engine result is an `Option ℤ` (`none` = the pytesseract call raised
  or no Orientation line was found, `some d` = the parsed integer);
* the OpenCV pipeline feeding `detect_rotation_cv` is an
  `Except Unit (Option (List ℚ))` (`.error` = a cv2 call raised, `.ok none` =
  HoughLines returned None, `.ok (some θs)` = the detected line angles in
  degrees, the bounded sample `lines[:200]`);
* the full-text OCR service is a function from a CCW test rotation to the
  stripped recognized-text length (exceptions inside the inner try yield the
  empty string, hence length 0);
* an exception in the vote machinery outside the inner OCR try (for example in
  `pil_img.rotate` of iteration k) is `vote_crash = some k`; its payload k is
  the number of completed full-text OCR calls when the outer try aborts.

Angles are modelled as rationals, machine ints as ℤ with explicit `% 360`
(Lean `Int` `%` is `Int.emod`, which agrees with the nonnegative Python `%`).
-/

/-- Embeds `detect_page_rotation_from_image` (pdf_utils.py lines 9-19): parse
the OSD orientation line and return `deg % 360`; any exception or a missing
line gives 0. -/
def detect_page_rotation_from_image (osd_raw : Option ℤ) : ℤ :=
  match osd_raw with
  | some d => d % 360
  | none => 0

/-- Python `%` on rationals for a positive modulus: `a - b * ⌊a / b⌋`. -/
def qmod (a b : ℚ) : ℚ := a - b * ⌊a / b⌋

/-- The normalization `((a + 90) % 180) - 90` of pdf_utils.py line 148. -/
def normalizeAngle (a : ℚ) : ℚ := qmod (a + 90) 180 - 90

/-- `np.median`: sort, take the middle element for odd length, the mean of the
two middle elements for even length (pdf_utils.py line 149). -/
def npMedian (l : List ℚ) : ℚ :=
  let s := List.insertionSort (· ≤ ·) l
  let n := s.length
  if n % 2 = 1 then s.getD (n / 2) 0
  else (s.getD (n / 2 - 1) 0 + s.getD (n / 2) 0) / 2

/-- Python `round`: round half to even (used at pdf_utils.py line 164). -/
def pyRound (q : ℚ) : ℤ :=
  let f := ⌊q⌋
  let r := q - f
  if r < 1 / 2 then f
  else if 1 / 2 < r then f + 1
  else if f % 2 = 0 then f else f + 1

/-- Embeds `detect_rotation_cv` (pdf_utils.py lines 119-167).  The function has
no internal try/except, so a cv2 failure (`.error`) propagates to the caller. -/
def detect_rotation_cv (cv_raw : Except Unit (Option (List ℚ))) :
    Except Unit (Option ℤ) :=
  match cv_raw with
  | .error e => .error e
  | .ok none => .ok none
  | .ok (some thetas) =>
    let angles := thetas.map normalizeAngle
    if angles.length = 0 then .ok none
    else
      let median_angle := npMedian angles
      if |median_angle| < 10 then .ok (some 0)
      else if 80 < |median_angle| ∧ |median_angle| ≤ 100 then
        .ok (some (if median_angle > 0 then 270 else 90))
      else
        let rounded := (pyRound (median_angle / 90) * 90) % 360
        if rounded = 0 ∨ rounded = 90 ∨ rounded = 180 ∨ rounded = 270 then
          .ok (some rounded)
        else .ok none

/-- The per-page outcomes of every external service the deciders consult. -/
structure PageSignals where
  osd_raw : Option ℤ
  cv_raw : Except Unit (Option (List ℚ))
  ocr_len : ℤ → ℕ
  vote_crash : Option (Fin 4)

/-- `osd_deg` as computed at the top of both deciders. -/
def osdDeg (p : PageSignals) : ℤ :=
  detect_page_rotation_from_image p.osd_raw

/-- `candidate_from_osd = (360 - osd_deg) % 360 if osd_deg != 0 else 0`
(pdf_utils.py lines 51 and 190). -/
def candidateFromOsd (p : PageSignals) : ℤ :=
  if osdDeg p ≠ 0 then (360 - osdDeg p) % 360 else 0

/-- `candidate_from_cv` of `choose_rotation_to_apply` (pdf_utils.py lines
54-60): the surrounding try maps a cv2 exception to None; a defined `deg_cv`
is converted to its corrective value, zero staying zero. -/
def candidateFromCv (p : PageSignals) : Option ℤ :=
  match detect_rotation_cv p.cv_raw with
  | .error _ => none
  | .ok none => none
  | .ok (some deg_cv) =>
      some (if deg_cv ≠ 0 then (360 - deg_cv) % 360 else 0)

/-- The nested conditional expression of pdf_utils.py line 193:
`(360 - deg_cv) % 360 if deg_cv is not None and deg_cv != 0
 else 0 if deg_cv == 0 else None`
(note `None != 0` is True in Python, and the conditional expression
associates to the right). -/
def cvTernary (deg_cv : Option ℤ) : Option ℤ :=
  if deg_cv ≠ none ∧ deg_cv ≠ some 0 then
    some ((360 - deg_cv.getD 0) % 360)
  else if deg_cv = some 0 then some 0
  else none

/-- `candidate_from_cv` of `decide_clockwise_rotation` (pdf_utils.py lines
191-195): the try maps a cv2 exception to None, otherwise line 193 applies. -/
def candidateFromCvRebuild (p : PageSignals) : Option ℤ :=
  match detect_rotation_cv p.cv_raw with
  | .error _ => none
  | .ok deg_cv => cvTernary deg_cv

/-- The four-candidate vote loop (pdf_utils.py lines 69-80 and 203-214):
fold over CCW rotations (0, 90, 180, 270) with `best_ccw = None`,
`best_len = -1`, updating on strict improvement `l > best_len`. -/
def voteFold (f : ℤ → ℕ) : Option ℤ × ℤ :=
  [0, 90, 180, 270].foldl
    (fun acc ccw => if (f ccw : ℤ) > acc.2 then (some ccw, (f ccw : ℤ)) else acc)
    (none, -1)

/-- Embeds `choose_rotation_to_apply` (pdf_utils.py lines 30-95). -/
def choose_rotation_to_apply (p : PageSignals) : ℤ :=
  if osdDeg p ≠ 0 ∧ candidateFromCv p = some (candidateFromOsd p) then
    candidateFromOsd p
  else if p.vote_crash = none then
    match (voteFold p.ocr_len).1 with
    | some best_ccw => (360 - best_ccw) % 360
    | none => candidateFromOsd p
  else
    candidateFromOsd p

/-- Embeds `decide_clockwise_rotation` (pdf_utils.py lines 183-224); it differs
from `choose_rotation_to_apply` only in the CV candidate conversion. -/
def decide_clockwise_rotation (p : PageSignals) : ℤ :=
  if osdDeg p ≠ 0 ∧ candidateFromCvRebuild p = some (candidateFromOsd p) then
    candidateFromOsd p
  else if p.vote_crash = none then
    match (voteFold p.ocr_len).1 with
    | some best_ccw => (360 - best_ccw) % 360
    | none => candidateFromOsd p
  else
    candidateFromOsd p

/-- Number of full-text OCR calls (`pytesseract.image_to_string`) made by
`choose_rotation_to_apply`: zero on the agreement fast-path, four when the
vote loop completes, and the crash position when the outer try aborts. -/
def chooseOcrCalls (p : PageSignals) : ℕ :=
  if osdDeg p ≠ 0 ∧ candidateFromCv p = some (candidateFromOsd p) then 0
  else
    match p.vote_crash with
    | none => 4
    | some k => k.val

/-- Number of full-text OCR calls made by `decide_clockwise_rotation`. -/
def decideOcrCalls (p : PageSignals) : ℕ :=
  if osdDeg p ≠ 0 ∧ candidateFromCvRebuild p = some (candidateFromOsd p) then 0
  else
    match p.vote_crash with
    | none => 4
    | some k => k.val

/-- Embeds `fix_pdf_rotation` (pdf_utils.py lines 170-256) on the list of
per-page signals: the saved artifact (second component) is modelled by the list
of decided clockwise rotations; it is `none` exactly when `changed` stayed
False and the save was skipped. -/
def fix_pdf_rotation (pages : List PageSignals) : Bool × Option (List ℤ) :=
  let rots := pages.map decide_clockwise_rotation
  if rots.any (fun r => r != 0) then (true, some rots) else (false, none)

/-- Embeds `detect_table_angle` (main.py lines 24-57) as a function of the
`determine_skew` outcome: `none` stands for a None or NaN result or an
exception anywhere in the try; a defined angle is returned when its magnitude
exceeds 0.2 and collapsed to 0 otherwise. -/
def detect_table_angle (skew_raw : Option ℚ) : Option ℚ :=
  match skew_raw with
  | none => none
  | some angle => if |angle| > 1 / 5 then some angle else some 0

/-- The `should_apply` computation of `fix_rotation` step 2 (main.py lines
132-137): apply when the table angle is defined with magnitude above 0.3, or
when `force_table_fix` is set and the table angle is defined and nonzero. -/
def should_apply_fine (force_table_fix : Bool) (skew_raw : Option ℚ) : Bool :=
  match detect_table_angle skew_raw with
  | none => false
  | some table_angle =>
      decide (|table_angle| > 3 / 10) ||
        (force_table_fix && decide (table_angle ≠ 0))

/-- `choose_rotation_to_apply` with the exception flow left explicit: every
raise site of the Python body sits inside a try whose except clause resumes,
so every branch produces `.ok`; only `detect_rotation_cv` itself may propagate
an error, and its caller catches it (pdf_utils.py lines 55-60, 68-88). -/
def choose_rotation_to_applyE (p : PageSignals) : Except Unit ℤ :=
  let osd_deg := detect_page_rotation_from_image p.osd_raw
  let c_osd := if osd_deg ≠ 0 then (360 - osd_deg) % 360 else 0
  let c_cv : Option ℤ :=
    match detect_rotation_cv p.cv_raw with
    | .error _ => none
    | .ok none => none
    | .ok (some deg_cv) =>
        some (if deg_cv ≠ 0 then (360 - deg_cv) % 360 else 0)
  if osd_deg ≠ 0 ∧ c_cv = some c_osd then .ok c_osd
  else if p.vote_crash = none then
    match (voteFold p.ocr_len).1 with
    | some best_ccw => .ok ((360 - best_ccw) % 360)
    | none => .ok c_osd
  else .ok c_osd

/-- The quadrant invariant on decided rotations. -/
@[reducible] def isQuadrant (r : ℤ) : Prop := r = 0 ∨ r = 90 ∨ r = 180 ∨ r = 270

/-- The GeometryDetector decision table in the words of the spec: below 10
degrees upright, the 80-100 band picks 90 or 270 by the sign of the median,
otherwise the median rounded to the nearest multiple of 90 (mod 360) when that
lands on a quadrant, else uncertain. -/
def cvDecisionTable (m : ℚ) : Option ℤ :=
  if |m| < 10 then some 0
  else if 80 < |m| ∧ |m| ≤ 100 then some (if m > 0 then 270 else 90)
  else
    let rounded := (pyRound (m / 90) * 90) % 360
    if rounded = 0 ∨ rounded = 90 ∨ rounded = 180 ∨ rounded = 270 then
      some rounded
    else none

/-- Page where OSD reports 90, the CV pipeline raises, and full-text OCR reads
10 characters at test rotation 0 and nothing elsewhere. -/
def sigC1 : PageSignals :=
  ⟨some 90, .error (), fun c => if c = 0 then 10 else 0, none⟩

/-- Page where OSD reports 90, HoughLines finds no lines, and full-text OCR
reads nothing at every test rotation. -/
def sigC2cex : PageSignals := ⟨some 90, .ok none, fun _ => 0, none⟩

/-- Like `sigC2cex` but the vote machinery raises before its first OCR call. -/
def sigC2w : PageSignals := ⟨some 90, .ok none, fun _ => 0, some 0⟩

/-- Page where OSD reports 90 and the CV detector sees a single line at 95
degrees, hence infers rotation 90: both candidates agree on corrective 270. -/
def sigC3w : PageSignals := ⟨some 90, .ok (some [95]), fun _ => 0, none⟩

/-- Page with no OSD opinion, a raising CV pipeline and a crashed vote. -/
def sigC5w : PageSignals := ⟨none, .error (), fun _ => 0, some 0⟩

/-- Page where both detector pipelines fail and the vote completes empty. -/
def sigC7w : PageSignals := ⟨none, .error (), fun _ => 0, none⟩

/-- Page where OSD reports 180 and everything else fails or reads nothing. -/
def sigC8w : PageSignals := ⟨some 180, .error (), fun _ => 0, none⟩

/-- Page where OSD reports 90 and CV agrees (single 95-degree line) while the
full-text OCR reads the same empty text at all four test rotations. -/
def sigC10cex : PageSignals := ⟨some 90, .ok (some [95]), fun _ => 0, none⟩

/-- Page where OSD reports 90, HoughLines finds no lines and the full-text OCR
reads the same empty text at all four test rotations. -/
def sigC10w : PageSignals := ⟨some 90, .ok none, fun _ => 0, none⟩

lemma qmod_bounds (a : ℚ) : 0 ≤ qmod a 180 ∧ qmod a 180 < 180 := by
  unfold qmod
  constructor
  · have h : ((⌊a / 180⌋ : ℚ)) ≤ a / 180 := Int.floor_le (a / 180)
    rw [le_div_iff₀ (by norm_num : (0:ℚ) < 180)] at h
    linarith
  · have h : a / 180 < (⌊a / 180⌋ : ℚ) + 1 := Int.lt_floor_add_one (a / 180)
    rw [div_lt_iff₀ (by norm_num : (0:ℚ) < 180)] at h
    linarith

lemma normalizeAngle_bounds (a : ℚ) :
    -90 ≤ normalizeAngle a ∧ normalizeAngle a < 90 := by
  have h := qmod_bounds (a + 90)
  unfold normalizeAngle
  constructor <;> linarith [h.1, h.2]

lemma voteFold_fst (f : ℤ → ℕ) :
    (voteFold f).1 = some 0 ∨ (voteFold f).1 = some 90 ∨
      (voteFold f).1 = some 180 ∨ (voteFold f).1 = some 270 := by
  have h0 : ((f 0 : ℤ)) > (-1 : ℤ) :=
    lt_of_lt_of_le (by norm_num) (Int.ofNat_nonneg (f 0))
  simp only [voteFold, List.foldl_cons, List.foldl_nil]
  rw [if_pos h0]
  split_ifs <;> simp

lemma voteFold_const (f : ℤ → ℕ) (h90 : f 90 = f 0) (h180 : f 180 = f 0)
    (h270 : f 270 = f 0) : (voteFold f).1 = some 0 := by
  have h0 : ((f 0 : ℤ)) > (-1 : ℤ) :=
    lt_of_lt_of_le (by norm_num) (Int.ofNat_nonneg (f 0))
  simp only [voteFold, List.foldl_cons, List.foldl_nil]
  rw [if_pos h0]
  have e90 : ¬ ((f 90 : ℤ) > ((some (0:ℤ), (f 0 : ℤ))).2) := by
    show ¬ ((f 90 : ℤ) > (f 0 : ℤ))
    omega
  rw [if_neg e90]
  have e180 : ¬ ((f 180 : ℤ) > ((some (0:ℤ), (f 0 : ℤ))).2) := by
    show ¬ ((f 180 : ℤ) > (f 0 : ℤ))
    omega
  rw [if_neg e180]
  have e270 : ¬ ((f 270 : ℤ) > ((some (0:ℤ), (f 0 : ℤ))).2) := by
    show ¬ ((f 270 : ℤ) > (f 0 : ℤ))
    omega
  rw [if_neg e270]

lemma candidateFromCvRebuild_eq (p : PageSignals) :
    candidateFromCvRebuild p = candidateFromCv p := by
  unfold candidateFromCvRebuild candidateFromCv cvTernary
  cases hcv : detect_rotation_cv p.cv_raw with
  | error e => rfl
  | ok deg_cv =>
    cases deg_cv with
    | none => simp
    | some d =>
      by_cases hd : d = 0
      · subst hd; simp
      · simp [hd]

lemma decide_eq_choose (p : PageSignals) :
    decide_clockwise_rotation p = choose_rotation_to_apply p := by
  unfold decide_clockwise_rotation choose_rotation_to_apply
  rw [candidateFromCvRebuild_eq]

lemma decideOcrCalls_eq (p : PageSignals) :
    decideOcrCalls p = chooseOcrCalls p := by
  unfold decideOcrCalls chooseOcrCalls
  rw [candidateFromCvRebuild_eq]

lemma candidateFromOsd_quadrant (p : PageSignals) (h : isQuadrant (osdDeg p)) :
    isQuadrant (candidateFromOsd p) := by
  rcases h with h | h | h | h <;> simp [candidateFromOsd, h, isQuadrant]

/-- C1 counterexample: on `sigC1` the winning recognized-text length is 10,
which violates the 20-character floor, yet `choose_rotation_to_apply` returns
the vote winner corrective 0 instead of falling through to the fallback chain
(whose OSD candidate is 270). -/
theorem C1_counterexample :
    choose_rotation_to_apply sigC1 = 0 ∧ candidateFromOsd sigC1 = 270 ∧
      sigC1.ocr_len 0 = 10 ∧ (10 : ℕ) < 20 := by
  refine ⟨by decide, by decide, rfl, by decide⟩

/-- C1 amended: the source vote has no acceptance threshold at all.  Whenever
the agreement fast-path does not fire and the vote machinery completes, the
decider returns the corrective rotation `(360 - winning_ccw) % 360` of the
fold winner, with no 20-character floor and no 1.5x-margin check; the fallback
chain is reached only when the vote machinery itself raises. -/
theorem C1_vote_has_no_threshold (p : PageSignals)
    (hna : ¬ (osdDeg p ≠ 0 ∧ candidateFromCv p = some (candidateFromOsd p)))
    (hnc : p.vote_crash = none) :
    ∃ b, (voteFold p.ocr_len).1 = some b ∧
      choose_rotation_to_apply p = (360 - b) % 360 := by
  rcases voteFold_fst p.ocr_len with h | h | h | h <;>
    exact ⟨_, h, by unfold choose_rotation_to_apply; rw [if_neg hna, if_pos hnc, h]⟩

/-- C1 witness: on `sigC1` the hypotheses hold and the vote winner (test
rotation 0, scoring 10 characters) is returned as corrective 0. -/
theorem C1_witness :
    ∃ b, (voteFold sigC1.ocr_len).1 = some b ∧
      choose_rotation_to_apply sigC1 = (360 - b) % 360 :=
  C1_vote_has_no_threshold sigC1 (by decide) (by decide)

/-- C2 counterexample: with OSD detecting 90 and CV returning no opinion, the
decider does not fall back to 270: the OCR vote still runs, and with empty
text everywhere it returns 0. -/
theorem C2_counterexample :
    choose_rotation_to_apply sigC2cex = 0 ∧
      choose_rotation_to_apply sigC2cex ≠ 270 := by
  refine ⟨by decide, by decide⟩

/-- C2 amended: with OSD detecting 90 and the CV detector returning no opinion
the vote is still invoked; the OSD corrective 270 = (360 - 90) % 360 is the
result via the fallback chain exactly when the vote machinery raises. -/
theorem C2_fallback_gives_osd_corrective (p : PageSignals)
    (hosd : p.osd_raw = some 90)
    (hcv : detect_rotation_cv p.cv_raw = .ok none)
    (hcrash : p.vote_crash ≠ none) :
    choose_rotation_to_apply p = 270 ∧ candidateFromOsd p = (360 - 90) % 360 := by
  have hdeg : osdDeg p = 90 := by
    simp [osdDeg, detect_page_rotation_from_image, hosd]
  have hcand : candidateFromOsd p = 270 := by
    rw [candidateFromOsd, hdeg]
    decide
  have hccv : candidateFromCv p = none := by
    rw [candidateFromCv, hcv]
  constructor
  · unfold choose_rotation_to_apply
    rw [if_neg (by rw [hccv]; rintro ⟨-, h⟩; exact Option.noConfusion h),
      if_neg hcrash, hcand]
  · rw [hcand]; decide

/-- C2 witness: on `sigC2w` (OSD 90, no CV opinion, vote machinery raises)
the decider returns 270. -/
theorem C2_witness :
    choose_rotation_to_apply sigC2w = 270 ∧
      candidateFromOsd sigC2w = (360 - 90) % 360 :=
  C2_fallback_gives_osd_corrective sigC2w rfl (by decide) (by decide)

/-- C3: agreement fast-path.  When the OSD corrective candidate is non-zero
and the CV candidate is defined and equal to it, both deciders return that
candidate and make zero full-text OCR calls. -/
theorem C3_agreement_fast_path (p : PageSignals)
    (hosd : candidateFromOsd p ≠ 0)
    (hcv : candidateFromCv p = some (candidateFromOsd p)) :
    choose_rotation_to_apply p = candidateFromOsd p ∧ chooseOcrCalls p = 0 ∧
      decide_clockwise_rotation p = candidateFromOsd p ∧ decideOcrCalls p = 0 := by
  have hdeg : osdDeg p ≠ 0 := by
    intro h
    exact hosd (by rw [candidateFromOsd, h]; decide)
  have hagree : osdDeg p ≠ 0 ∧ candidateFromCv p = some (candidateFromOsd p) :=
    ⟨hdeg, hcv⟩
  have hagree2 : osdDeg p ≠ 0 ∧
      candidateFromCvRebuild p = some (candidateFromOsd p) := by
    rw [candidateFromCvRebuild_eq]
    exact hagree
  exact ⟨by rw [choose_rotation_to_apply, if_pos hagree],
    by rw [chooseOcrCalls, if_pos hagree],
    by rw [decide_clockwise_rotation, if_pos hagree2],
    by rw [decideOcrCalls, if_pos hagree2]⟩

/-- C3 witness: on `sigC3w` (OSD 90, CV inferring 90 from a 95-degree line)
both candidates are 270, the deciders return 270 and no OCR call is made. -/
theorem C3_witness :
    choose_rotation_to_apply sigC3w = candidateFromOsd sigC3w ∧
      chooseOcrCalls sigC3w = 0 ∧
      decide_clockwise_rotation sigC3w = candidateFromOsd sigC3w ∧
      decideOcrCalls sigC3w = 0 :=
  C3_agreement_fast_path sigC3w (by decide) (by decide)

/-- C5: the rebuild returns True exactly when some page decided a non-zero
clockwise rotation, and when it returns False nothing is written (the saved
artifact stays `none`, the caller keeps the original). -/
theorem C5_rebuild_changed_iff (pages : List PageSignals) :
    ((fix_pdf_rotation pages).1 = true ↔
      ∃ p ∈ pages, decide_clockwise_rotation p ≠ 0) ∧
    ((fix_pdf_rotation pages).1 = false → (fix_pdf_rotation pages).2 = none) := by
  have hfst : (fix_pdf_rotation pages).1 =
      (pages.map decide_clockwise_rotation).any (fun r => r != 0) := by
    unfold fix_pdf_rotation
    by_cases h : (pages.map decide_clockwise_rotation).any (fun r => r != 0) <;>
      simp [h]
  constructor
  · rw [hfst]
    simp
  · intro hf
    unfold fix_pdf_rotation
    rw [hfst] at hf
    rw [if_neg (by rw [hf]; decide)]

/-- C5 witness: a one-page document whose decision is 0 yields changed = False
and no saved artifact. -/
theorem C5_witness :
    (fix_pdf_rotation [sigC5w]).2 = none ∧ (fix_pdf_rotation [sigC5w]).1 = false :=
  ⟨(C5_rebuild_changed_iff [sigC5w]).2 (by decide), by decide⟩

/-- C6: the fine-skew correction is applied iff `detect_table_angle` returns a
defined table angle whose magnitude exceeds 0.3, or `force_table_fix` is set
and that angle is nonzero (even below the threshold). -/
theorem C6_fine_skew_application (force_table_fix : Bool) (skew_raw : Option ℚ) :
    should_apply_fine force_table_fix skew_raw = true ↔
      ∃ t, detect_table_angle skew_raw = some t ∧
        (|t| > 3 / 10 ∨ (force_table_fix = true ∧ t ≠ 0)) := by
  unfold should_apply_fine
  cases h : detect_table_angle skew_raw with
  | none => simp
  | some t =>
    constructor
    · intro happ
      refine ⟨t, rfl, ?_⟩
      rcases Bool.or_eq_true_iff.mp happ with h1 | h1
      · exact Or.inl (by simpa using h1)
      · rcases Bool.and_eq_true_iff.mp h1 with ⟨hf, ht⟩
        exact Or.inr ⟨hf, by simpa using ht⟩
    · rintro ⟨u, hu, hcase⟩
      obtain rfl : t = u := by simpa using hu
      rcases hcase with h1 | ⟨hf, h1⟩
      · exact Bool.or_eq_true_iff.mpr (Or.inl (by simpa using h1))
      · exact Bool.or_eq_true_iff.mpr
          (Or.inr (Bool.and_eq_true_iff.mpr ⟨hf, by simpa using h1⟩))

/-- C6 witness: a detected skew of 0.25 degrees is below the 0.3 threshold yet
the correction is applied when the caller forces it, and skipped otherwise. -/
theorem C6_witness :
    should_apply_fine true (some (1 / 4)) = true ∧
      ¬ (|(1 : ℚ) / 4| > 3 / 10) ∧ should_apply_fine false (some (1 / 4)) = false :=
  ⟨(C6_fine_skew_application true (some (1 / 4))).mpr
      ⟨1 / 4, by decide, Or.inr ⟨rfl, by decide⟩⟩,
    by decide, by decide⟩

/-- C9 counterexample: the conversion of pdf_utils.py line 193 maps
`deg_cv == 0` to the candidate 0, never to None; the execution claimed by the
spec does not exist (the expression is deterministic in `deg_cv`). -/
theorem C9_counterexample :
    cvTernary (some 0) = some 0 ∧ cvTernary (some 0) ≠ none := by
  refine ⟨by decide, by decide⟩

/-- C9 amended: the nested ternary, although confusingly written, is a correct
three-way conversion: a defined nonzero `deg_cv` becomes its corrective
rotation, `deg_cv == 0` becomes the explicit candidate 0, and only an
undefined `deg_cv` (None) yields None. -/
theorem C9_ternary_is_consistent (d : ℤ) (hd : d ≠ 0) :
    cvTernary (some d) = some ((360 - d) % 360) ∧
      cvTernary (some 0) = some 0 ∧ cvTernary none = none := by
  refine ⟨?_, by decide, by decide⟩
  unfold cvTernary
  rw [if_pos ⟨Option.some_ne_none d, by simpa using hd⟩]
  rfl

/-- C9 witness: at `deg_cv = 90` the conversion yields corrective 270. -/
theorem C9_witness :
    cvTernary (some 90) = some ((360 - 90) % 360) ∧
      cvTernary (some 0) = some 0 ∧ cvTernary none = none :=
  C9_ternary_is_consistent 90 (by decide)

/-- C10 counterexample: with all four OCR scores equal (all zero) on
`sigC10cex`, the decider does not return 0: the OSD estimate 90 and the
agreeing CV estimate trigger the fast-path and the result is 270, so the
vote order does not decide regardless of OSD and CV. -/
theorem C10_counterexample :
    choose_rotation_to_apply sigC10cex = 270 ∧
      choose_rotation_to_apply sigC10cex ≠ 0 ∧
      sigC10cex.ocr_len 90 = sigC10cex.ocr_len 0 ∧
      sigC10cex.ocr_len 180 = sigC10cex.ocr_len 0 ∧
      sigC10cex.ocr_len 270 = sigC10cex.ocr_len 0 := by
  refine ⟨by decide, by decide, rfl, rfl, rfl⟩

/-- C10 amended: when the agreement fast-path does not fire and the vote
machinery completes, the vote tests candidates in the fixed order 0, 90, 180,
270 CCW and only a strict improvement replaces the leader, so with all four
recognized-text lengths equal the earliest candidate 0 wins and both deciders
return clockwise rotation 0. -/
theorem C10_tie_breaks_to_first_candidate (p : PageSignals)
    (hna : ¬ (osdDeg p ≠ 0 ∧ candidateFromCv p = some (candidateFromOsd p)))
    (hnc : p.vote_crash = none)
    (h90 : p.ocr_len 90 = p.ocr_len 0) (h180 : p.ocr_len 180 = p.ocr_len 0)
    (h270 : p.ocr_len 270 = p.ocr_len 0) :
    (voteFold p.ocr_len).1 = some 0 ∧ choose_rotation_to_apply p = 0 ∧
      decide_clockwise_rotation p = 0 := by
  have hv := voteFold_const p.ocr_len h90 h180 h270
  have hchoose : choose_rotation_to_apply p = 0 := by
    unfold choose_rotation_to_apply
    rw [if_neg hna, if_pos hnc, hv]
    show ((360 : ℤ) - 0) % 360 = 0
    decide
  exact ⟨hv, hchoose, by rw [decide_eq_choose]; exact hchoose⟩

/-- C10 witness: OSD 90 with no CV opinion and empty OCR text at all four test
rotations yields decision 0 from both deciders. -/
theorem C10_witness :
    (voteFold sigC10w.ocr_len).1 = some 0 ∧
      choose_rotation_to_apply sigC10w = 0 ∧
      decide_clockwise_rotation sigC10w = 0 :=
  C10_tie_breaks_to_first_candidate sigC10w (by decide) rfl rfl rfl rfl

/-- C4: the GeometryDetector maps its angles exactly as the decision table of
the spec: normalize each detected angle into [-90, 90), take the median, then
below 10 degrees return 0, in the 80-100 band return 90 or 270 by the sign of
the median, otherwise the rounded multiple of 90 when it lands on a quadrant,
else uncertain; no detected lines is uncertain. -/
theorem C4_cv_decision_table (thetas : List ℚ) (hne : thetas ≠ []) :
    detect_rotation_cv (.ok (some thetas)) =
      .ok (cvDecisionTable (npMedian (thetas.map normalizeAngle))) ∧
    detect_rotation_cv (.ok none) = .ok none ∧
    ∀ a : ℚ, -90 ≤ normalizeAngle a ∧ normalizeAngle a < 90 := by
  refine ⟨?_, rfl, normalizeAngle_bounds⟩
  have hlen : ¬ ((thetas.map normalizeAngle).length = 0) := by
    simpa using hne
  simp only [detect_rotation_cv, cvDecisionTable]
  rw [if_neg hlen]
  split_ifs <;> rfl

/-- C4 witness: a single detected line at 95 degrees normalizes to -85, whose
median falls in the 80-100 band with negative sign, giving rotation 90. -/
theorem C4_witness :
    ([95] : List ℚ) ≠ [] ∧
      detect_rotation_cv (.ok (some [95])) =
        .ok (cvDecisionTable (npMedian (([95] : List ℚ).map normalizeAngle))) ∧
      detect_rotation_cv (.ok (some ([95] : List ℚ))) = .ok (some 90) :=
  ⟨by decide, (C4_cv_decision_table [95] (by decide)).1, by decide⟩

/-- C7 counterexample: `detect_rotation_cv` has no internal exception handler,
so a cv2 failure raises past the GeometryDetector boundary (the error is
propagated to the caller, which is where it is caught). -/
theorem C7_counterexample :
    detect_rotation_cv (.error ()) = .error () := rfl

/-- C7 amended: no detector failure aborts a page: an OSD exception yields
osd_deg 0 inside `detect_page_rotation_from_image`; a cv2 exception propagates
out of `detect_rotation_cv` but is caught at each decider, whose CV candidate
becomes None; and the decider as a whole never raises (its explicit-exception
form always returns `.ok` of the total decision), in both rebuild and
diagnostics variants. -/
theorem C7_failures_never_abort (p : PageSignals) :
    (p.osd_raw = none → osdDeg p = 0) ∧
    (p.cv_raw = .error () →
      candidateFromCv p = none ∧ candidateFromCvRebuild p = none) ∧
    choose_rotation_to_applyE p = .ok (choose_rotation_to_apply p) ∧
    decide_clockwise_rotation p = choose_rotation_to_apply p := by
  refine ⟨?_, ?_, ?_, decide_eq_choose p⟩
  · intro h
    simp [osdDeg, detect_page_rotation_from_image, h]
  · intro h
    constructor
    · simp [candidateFromCv, detect_rotation_cv, h]
    · simp [candidateFromCvRebuild, detect_rotation_cv, h]
  · simp only [choose_rotation_to_applyE, choose_rotation_to_apply, osdDeg,
      candidateFromOsd, candidateFromCv, detect_page_rotation_from_image]
    split_ifs <;> first
      | rfl
      | (cases (voteFold p.ocr_len).1 <;> rfl)

/-- C7 witness: with both detector pipelines failing, osd_deg is 0, both CV
candidates are None, and the decider still returns an ok decision. -/
theorem C7_witness :
    osdDeg sigC7w = 0 ∧ candidateFromCv sigC7w = none ∧
      candidateFromCvRebuild sigC7w = none ∧
      choose_rotation_to_applyE sigC7w = .ok (choose_rotation_to_apply sigC7w) :=
  ⟨(C7_failures_never_abort sigC7w).1 rfl,
    ((C7_failures_never_abort sigC7w).2.1 rfl).1,
    ((C7_failures_never_abort sigC7w).2.1 rfl).2,
    (C7_failures_never_abort sigC7w).2.2.1⟩

/-- C8: under the OSD engine contract (its reported orientation is a
quadrant), every combination of detector outcomes, including all failure
branches, yields a decision in (0, 90, 180, 270) from both deciders. -/
theorem C8_decision_is_quadrant (p : PageSignals) (h : isQuadrant (osdDeg p)) :
    isQuadrant (choose_rotation_to_apply p) ∧
      isQuadrant (decide_clockwise_rotation p) := by
  have hosd := candidateFromOsd_quadrant p h
  have hchoose : isQuadrant (choose_rotation_to_apply p) := by
    unfold choose_rotation_to_apply
    split_ifs with h1 h2
    · exact hosd
    · rcases voteFold_fst p.ocr_len with hv | hv | hv | hv <;> rw [hv]
      · show isQuadrant (((360 : ℤ) - 0) % 360)
        decide
      · show isQuadrant (((360 : ℤ) - 90) % 360)
        decide
      · show isQuadrant (((360 : ℤ) - 180) % 360)
        decide
      · show isQuadrant (((360 : ℤ) - 270) % 360)
        decide
    · exact hosd
  exact ⟨hchoose, by rw [decide_eq_choose]; exact hchoose⟩

/-- C8 witness: OSD 180 with every other signal failing decides quadrant
rotations from both deciders. -/
theorem C8_witness :
    isQuadrant (choose_rotation_to_apply sigC8w) ∧
      isQuadrant (decide_clockwise_rotation sigC8w) :=
  C8_decision_is_quadrant sigC8w (by decide)
